import Mathlib

/-!
Shallow embedding of the NFC core of the ESP32-PN5180-ePaper firmware.

Part 1: the ISO14443A response validator / extractor of the Arduino sketch
(`validate4ByteUID`, `validate7ByteUID`, `validate10ByteUID`, `readCard`)
and the main-loop dispatch on the result of `readCard`.

Bytes are modelled as `Nat` (values < 256 in all intended uses); byte
buffers as `List Nat`, indexed with `List.getD`.  The raw anticollision
response produced by the external `nfc.activateTypeA` call is an input of
the embedding: a returned length (`Int`, the C `int8_t`) together with the
10-byte response buffer contents after activation.
-/

namespace NfcSketch

/-- Loop pattern used by every validator: bytes `start, start+1, ...,
start+len-1` of `uid` all equal `v` (the C loops computing `allZero` /
`allFF` with early break). -/
def bytesAll (uid : List Nat) (start len v : Nat) : Bool :=
  (List.range' start len).all (fun i => uid.getD i 0 == v)

/-- `validate4ByteUID` from the sketch: rejects a reserved first byte
(0x00 or the cascade tag 0x88), an all-zero UID and an all-0xFF UID. -/
def validate4ByteUID (uid : List Nat) : Bool :=
  if uid.getD 0 0 == 0x00 || uid.getD 0 0 == 0x88 then false
  else if bytesAll uid 0 4 0x00 then false
  else if bytesAll uid 0 4 0xFF then false
  else true

/-- `validate7ByteUID` from the sketch: byte 3 must be the cascade tag
0x88, the trailing 3 bytes must not be all zero or all 0xFF, and the
first byte must be nonzero. -/
def validate7ByteUID (uid : List Nat) : Bool :=
  if uid.getD 3 0 != 0x88 then false
  else if bytesAll uid 4 3 0x00 then false
  else if bytesAll uid 4 3 0xFF then false
  else if uid.getD 0 0 == 0x00 then false
  else true

/-- `validate10ByteUID` from the sketch: the 10 bytes must not be all
zero or all 0xFF. -/
def validate10ByteUID (uid : List Nat) : Bool :=
  if bytesAll uid 0 10 0x00 then false
  else if bytesAll uid 0 10 0xFF then false
  else true

/-- The SAK whitelist switch in `readCard`. -/
def isValidSAK (sak : Nat) : Bool :=
  sak == 0x00 || sak == 0x08 || sak == 0x09 || sak == 0x10 || sak == 0x11 ||
  sak == 0x18 || sak == 0x20 || sak == 0x28 || sak == 0x88 || sak == 0x89

/-- `uidBuffer[i] := resp[srcOff + i]` for `i < n`, the copy loops of
`readCard`; entries of `dst` beyond `n` are untouched. -/
def copyFrom (dst resp : List Nat) (srcOff n : Nat) : List Nat :=
  (List.range dst.length).map
    (fun i => if i < n then resp.getD (srcOff + i) 0 else dst.getD i 0)

/-- `readCard` from the sketch.  Inputs: the value returned by the
external `nfc.activateTypeA` (`rawLen`, a C `int8_t`) and the contents of
the 10-byte `responseBuffer` after activation (`resp`); `uidBuffer` is the
caller-supplied output buffer.  Returns the C return value paired with
the contents of `uidBuffer` after the call. -/
def readCard (rawLen : Int) (resp uidBuffer : List Nat) : Int × List Nat :=
  if rawLen ≤ 0 then (rawLen, uidBuffer)
  else if rawLen ≠ 4 ∧ rawLen ≠ 7 ∧ rawLen ≠ 10 then (-3, uidBuffer)
  else
    -- uint16_t atqaValue = (responseBuffer[1] << 8) | responseBuffer[0];
    let atqa := (Nat.lor (resp.getD 1 0 <<< 8) (resp.getD 0 0)) % 65536
    if atqa == 0x0000 || atqa == 0xFFFF then (-3, uidBuffer)
    else if !isValidSAK (resp.getD 2 0) then (-3, uidBuffer)
    else if rawLen = 4 then
      if !validate4ByteUID (resp.drop 3) then (-3, uidBuffer)
      else (4, copyFrom uidBuffer resp 3 4)
    else if rawLen = 7 then
      if !validate7ByteUID (resp.drop 3) then (-3, uidBuffer)
      else (7, copyFrom uidBuffer resp 3 7)
    else
      if !validate10ByteUID (resp.drop 3) then (-3, uidBuffer)
      else (10, copyFrom uidBuffer resp 3 10)

/-- The three branches the main loop takes on `readCard`'s result:
`uidLength > 0` builds the UID string / card record and drives the
display ("card detected" path), `uidLength < 0` is the error/reset path,
`uidLength == 0` the no-card path.  Only the first branch ever touches
the event sink / display path with a card record. -/
inductive LoopBranch where
  | cardDetected
  | readError
  | noCard
deriving DecidableEq, Repr

/-- Dispatch of the `MODE_NFC` case of `loop()` on `readCard`'s result. -/
def nfcLoopDispatch (uidLength : Int) : LoopBranch :=
  if uidLength > 0 then .cardDetected
  else if uidLength < 0 then .readError
  else .noCard

/-- The protocols of the driver (`pn5180_protocol_t`). -/
inductive Protocol where
  | iso14443a
  | iso14443b
  | iso15693
  | nfcip1
  | felica
deriving DecidableEq, Repr

/-- The card record the main loop builds from a successful `readCard`:
the first `len` bytes of the output buffer plus the length; the protocol
tag is ISO14443A because `readCard` performs exclusively a Type A
activation (`nfc.activateTypeA`). -/
structure CardRecord where
  uid : List Nat
  len : Nat
  protocol : Protocol
deriving DecidableEq, Repr

/-- Card record produced for one `readCard` outcome, starting from the
zeroed 10-byte `uidBuffer` of `loop()`; `none` when the detected-card
path is not taken. -/
def readCardRecord (rawLen : Int) (resp : List Nat) : Option CardRecord :=
  let r := readCard rawLen resp (List.replicate 10 0)
  if r.1 > 0 then some ⟨r.2.take r.1.toNat, r.1.toNat, .iso14443a⟩ else none

end NfcSketch
namespace NfcSketch

lemma getD_drop (n : Nat) (l : List Nat) (i d : Nat) :
    (l.drop n).getD i d = l.getD (n + i) d := by
  induction n generalizing l with
  | zero => simp
  | succ m ih =>
    cases l with
    | nil => simp
    | cons a t => simp only [List.drop_succ_cons, List.getD_cons_succ, Nat.succ_add, ih t]

lemma bytesAll_succ (uid : List Nat) (start m v : Nat) :
    bytesAll uid start (m + 1) v =
      ((uid.getD start 0 == v) && bytesAll uid (start + 1) m v) := by
  simp [bytesAll, List.range']

lemma bytesAll_eq_true_iff (uid : List Nat) (v len start : Nat) :
    bytesAll uid start len v = true ↔ ∀ i < len, uid.getD (start + i) 0 = v := by
  induction len generalizing start with
  | zero => simp [bytesAll]
  | succ m ih =>
    rw [bytesAll_succ, Bool.and_eq_true, beq_iff_eq, ih]
    constructor
    · rintro ⟨h0, h⟩ i hi
      cases i with
      | zero => rw [Nat.add_zero]; exact h0
      | succ j =>
        have e : start + (j + 1) = start + 1 + j := by omega
        rw [e]
        exact h j (by omega)
    · intro h
      constructor
      · have := h 0 (by omega)
        rwa [Nat.add_zero] at this
      · intro j hj
        have e : start + (j + 1) = start + 1 + j := by omega
        rw [← e]
        exact h (j + 1) (by omega)

lemma bytesAll_eq_false (uid : List Nat) (v len start i : Nat)
    (hi : i < len) (hne : uid.getD (start + i) 0 ≠ v) :
    bytesAll uid start len v = false := by
  cases h : bytesAll uid start len v with
  | false => rfl
  | true => exact absurd ((bytesAll_eq_true_iff uid v len start).mp h i hi) hne

lemma validate4_allZero (uid : List Nat) (h : ∀ i < 4, uid.getD i 0 = 0x00) :
    validate4ByteUID uid = false := by
  have h0 := h 0 (by norm_num)
  unfold validate4ByteUID
  rw [h0]
  rfl

lemma validate4_allFF (uid : List Nat) (h : ∀ i < 4, uid.getD i 0 = 0xFF) :
    validate4ByteUID uid = false := by
  have h0 := h 0 (by norm_num)
  have hz : bytesAll uid 0 4 0x00 = false := by
    apply bytesAll_eq_false uid 0x00 4 0 0 (by norm_num)
    rw [Nat.add_zero, h0]
    norm_num
  have hf : bytesAll uid 0 4 0xFF = true := by
    rw [bytesAll_eq_true_iff]
    intro i hi
    rw [Nat.zero_add]
    exact h i hi
  unfold validate4ByteUID
  rw [h0, hz, hf]
  rfl

lemma validate7_ct (uid : List Nat) (h : uid.getD 3 0 ≠ 0x88) :
    validate7ByteUID uid = false := by
  unfold validate7ByteUID
  cases hb : uid.getD 3 0 != 0x88 with
  | true => rfl
  | false => exact absurd (by simpa using hb) h

lemma validate7_allZero (uid : List Nat) (h : ∀ i < 7, uid.getD i 0 = 0x00) :
    validate7ByteUID uid = false := by
  have h3 := h 3 (by norm_num)
  exact validate7_ct uid (by rw [h3]; norm_num)

lemma validate7_allFF (uid : List Nat) (h : ∀ i < 7, uid.getD i 0 = 0xFF) :
    validate7ByteUID uid = false := by
  have h3 := h 3 (by norm_num)
  exact validate7_ct uid (by rw [h3]; norm_num)

lemma validate10_allZero (uid : List Nat) (h : ∀ i < 10, uid.getD i 0 = 0x00) :
    validate10ByteUID uid = false := by
  have hz : bytesAll uid 0 10 0x00 = true := by
    rw [bytesAll_eq_true_iff]
    intro i hi
    rw [Nat.zero_add]
    exact h i hi
  unfold validate10ByteUID
  rw [hz]
  rfl

lemma validate10_allFF (uid : List Nat) (h : ∀ i < 10, uid.getD i 0 = 0xFF) :
    validate10ByteUID uid = false := by
  have h0 := h 0 (by norm_num)
  have hz : bytesAll uid 0 10 0x00 = false := by
    apply bytesAll_eq_false uid 0x00 10 0 0 (by norm_num)
    rw [Nat.add_zero, h0]
    norm_num
  have hf : bytesAll uid 0 10 0xFF = true := by
    rw [bytesAll_eq_true_iff]
    intro i hi
    rw [Nat.zero_add]
    exact h i hi
  unfold validate10ByteUID
  rw [hz, hf]
  rfl

lemma readCard_len_invalid (rawLen : Int) (resp buf : List Nat)
    (hpos : 0 < rawLen) (h4 : rawLen ≠ 4) (h7 : rawLen ≠ 7) (h10 : rawLen ≠ 10) :
    readCard rawLen resp buf = (-3, buf) := by
  simp only [readCard]
  rw [if_neg (by omega), if_pos ⟨h4, h7, h10⟩]

lemma readCard_4_invalid (resp buf : List Nat)
    (hv : validate4ByteUID (List.drop 3 resp) = false) :
    readCard 4 resp buf = (-3, buf) := by
  simp only [readCard, hv]
  rw [if_neg (by norm_num), if_neg (by norm_num)]
  split
  · rfl
  · split
    · rfl
    · simp

lemma readCard_7_invalid (resp buf : List Nat)
    (hv : validate7ByteUID (List.drop 3 resp) = false) :
    readCard 7 resp buf = (-3, buf) := by
  simp only [readCard, hv]
  rw [if_neg (by norm_num), if_neg (by norm_num)]
  split
  · rfl
  · split
    · rfl
    · simp

lemma readCard_10_invalid (resp buf : List Nat)
    (hv : validate10ByteUID (List.drop 3 resp) = false) :
    readCard 10 resp buf = (-3, buf) := by
  simp only [readCard, hv]
  rw [if_neg (by norm_num), if_neg (by norm_num)]
  split
  · rfl
  · split
    · rfl
    · simp

lemma readCard_frame (rawLen : Int) (resp buf : List Nat) :
    (readCard rawLen resp buf).1 ≤ 0 → (readCard rawLen resp buf).2 = buf := by
  simp only [readCard]
  repeat' split
  all_goals intro h
  all_goals first
    | rfl
    | (exfalso; norm_num at h)

end NfcSketch
namespace NfcSketch

/-- C1: a raw anticollision response whose reported length is positive
but not 4, 7 or 10 makes `readCard` return the structural error -3 with
the caller's UID buffer untouched, and the main loop's card-detected
(event sink / display) branch is not taken for that result. -/
theorem C1_invalid_length_is_structural_error (rawLen : Int) (resp buf : List Nat)
    (hpos : 0 < rawLen) (h4 : rawLen ≠ 4) (h7 : rawLen ≠ 7) (h10 : rawLen ≠ 10) :
    readCard rawLen resp buf = (-3, buf) ∧
    nfcLoopDispatch (readCard rawLen resp buf).1 ≠ LoopBranch.cardDetected := by
  have h := readCard_len_invalid rawLen resp buf hpos h4 h7 h10
  refine ⟨h, ?_⟩
  rw [h]
  show nfcLoopDispatch (-3) ≠ LoopBranch.cardDetected
  decide

/-- Witness for C1 at the concrete length 5. -/
theorem C1_invalid_length_is_structural_error_witness :
    (0 : Int) < 5 ∧ (5 : Int) ≠ 4 ∧ (5 : Int) ≠ 7 ∧ (5 : Int) ≠ 10 ∧
    (readCard 5 (List.replicate 10 0xFF) (List.replicate 10 0) =
      (-3, List.replicate 10 0) ∧
    nfcLoopDispatch (readCard 5 (List.replicate 10 0xFF) (List.replicate 10 0)).1 ≠
      LoopBranch.cardDetected) :=
  ⟨by norm_num, by norm_num, by norm_num, by norm_num,
   C1_invalid_length_is_structural_error 5 (List.replicate 10 0xFF)
     (List.replicate 10 0) (by norm_num) (by norm_num) (by norm_num) (by norm_num)⟩

/-- C2: an all-0x00 or all-0xFF candidate identifier of any valid length
is rejected: each of `validate4ByteUID`, `validate7ByteUID`,
`validate10ByteUID` returns false on it, and `readCard` on a response of
that length whose identifier bytes (offsets 3 onwards) are all 0x00 or
all 0xFF returns the error -3 and leaves the UID buffer untouched. -/
theorem C2_all_zero_or_all_one_identifier_rejected :
    (∀ uid : List Nat,
      ((∀ i < 4, uid.getD i 0 = 0x00) ∨ (∀ i < 4, uid.getD i 0 = 0xFF)) →
      validate4ByteUID uid = false) ∧
    (∀ uid : List Nat,
      ((∀ i < 7, uid.getD i 0 = 0x00) ∨ (∀ i < 7, uid.getD i 0 = 0xFF)) →
      validate7ByteUID uid = false) ∧
    (∀ uid : List Nat,
      ((∀ i < 10, uid.getD i 0 = 0x00) ∨ (∀ i < 10, uid.getD i 0 = 0xFF)) →
      validate10ByteUID uid = false) ∧
    (∀ (rawLen : Int) (resp buf : List Nat),
      (rawLen = 4 ∨ rawLen = 7 ∨ rawLen = 10) →
      ((∀ i < rawLen.toNat, resp.getD (3 + i) 0 = 0x00) ∨
       (∀ i < rawLen.toNat, resp.getD (3 + i) 0 = 0xFF)) →
      readCard rawLen resp buf = (-3, buf)) := by
  refine ⟨?_, ?_, ?_, ?_⟩
  · rintro uid (h | h)
    · exact validate4_allZero uid h
    · exact validate4_allFF uid h
  · rintro uid (h | h)
    · exact validate7_allZero uid h
    · exact validate7_allFF uid h
  · rintro uid (h | h)
    · exact validate10_allZero uid h
    · exact validate10_allFF uid h
  · rintro rawLen resp buf (rfl | rfl | rfl) h
    · refine readCard_4_invalid resp buf ?_
      rcases h with h | h
      · exact validate4_allZero _ (fun i hi => by
          rw [getD_drop]
          exact h i hi)
      · exact validate4_allFF _ (fun i hi => by
          rw [getD_drop]
          exact h i hi)
    · refine readCard_7_invalid resp buf ?_
      rcases h with h | h
      · exact validate7_allZero _ (fun i hi => by
          rw [getD_drop]
          exact h i hi)
      · exact validate7_allFF _ (fun i hi => by
          rw [getD_drop]
          exact h i hi)
    · refine readCard_10_invalid resp buf ?_
      rcases h with h | h
      · exact validate10_allZero _ (fun i hi => by
          rw [getD_drop]
          exact h i hi)
      · exact validate10_allFF _ (fun i hi => by
          rw [getD_drop]
          exact h i hi)

/-- Witness for C2: the all-zero 4-byte identifier, and `readCard` on a
7-byte response whose identifier bytes are all 0xFF. -/
theorem C2_all_zero_or_all_one_identifier_rejected_witness :
    validate4ByteUID [0, 0, 0, 0] = false ∧
    readCard 7 [0x04, 0x00, 0x08, 0xFF, 0xFF, 0xFF, 0xFF, 0xFF, 0xFF, 0xFF]
      (List.replicate 10 0) = (-3, List.replicate 10 0) :=
  ⟨C2_all_zero_or_all_one_identifier_rejected.1 [0, 0, 0, 0]
     (Or.inl (by decide)),
   C2_all_zero_or_all_one_identifier_rejected.2.2.2 7
     [0x04, 0x00, 0x08, 0xFF, 0xFF, 0xFF, 0xFF, 0xFF, 0xFF, 0xFF]
     (List.replicate 10 0) (by norm_num) (Or.inr (by decide))⟩

/-- C3: the crafted raw response with ATQA 0x0004 (bytes 0x04 0x00,
little-endian), SAK 0x08 and UID DE AD BE EF passes `readCard`, which
returns length 4 and copies exactly these UID bytes; the resulting card
record carries that UID, length 4 and the ISO14443A protocol tag. -/
theorem C3_roundtrip_known_good_4_byte_uid :
    readCard 4 [0x04, 0x00, 0x08, 0xDE, 0xAD, 0xBE, 0xEF, 0xFF, 0xFF, 0xFF]
      (List.replicate 10 0) =
      (4, [0xDE, 0xAD, 0xBE, 0xEF, 0, 0, 0, 0, 0, 0]) ∧
    readCardRecord 4 [0x04, 0x00, 0x08, 0xDE, 0xAD, 0xBE, 0xEF, 0xFF, 0xFF, 0xFF] =
      some ⟨[0xDE, 0xAD, 0xBE, 0xEF], 4, Protocol.iso14443a⟩ := by
  constructor
  · decide
  · decide

/-- C4: a 7-byte candidate identifier whose byte 3 is not the cascade
tag 0x88 is rejected by `validate7ByteUID` whatever its other bytes, and
`readCard` on any 7-byte response with response byte 6 (identifier byte
3) different from 0x88 returns the error -3, whatever its ATQA, SAK and
remaining bytes. -/
theorem C4_missing_cascade_tag_rejected :
    (∀ uid : List Nat, uid.getD 3 0 ≠ 0x88 → validate7ByteUID uid = false) ∧
    (∀ resp buf : List Nat, resp.getD 6 0 ≠ 0x88 →
      readCard 7 resp buf = (-3, buf)) := by
  refine ⟨validate7_ct, ?_⟩
  intro resp buf h
  refine readCard_7_invalid resp buf (validate7_ct _ ?_)
  rw [getD_drop]
  exact h

/-- Witness for C4 at a concrete identifier and response. -/
theorem C4_missing_cascade_tag_rejected_witness :
    validate7ByteUID [0x01, 0x02, 0x03, 0x77, 0x05, 0x06, 0x07] = false ∧
    readCard 7 [0x04, 0x00, 0x08, 0x01, 0x02, 0x03, 0x77, 0x05, 0x06, 0x07]
      (List.replicate 10 0) = (-3, List.replicate 10 0) :=
  ⟨C4_missing_cascade_tag_rejected.1 [0x01, 0x02, 0x03, 0x77, 0x05, 0x06, 0x07]
     (by norm_num),
   C4_missing_cascade_tag_rejected.2
     [0x04, 0x00, 0x08, 0x01, 0x02, 0x03, 0x77, 0x05, 0x06, 0x07]
     (List.replicate 10 0) (by norm_num)⟩

/-- C9 (frame condition): whenever `readCard` does not return a valid
UID length — its result is 0 or a negative error code — the
caller-supplied UID buffer is left completely unchanged. -/
theorem C9_uid_buffer_unchanged_on_failure (rawLen : Int) (resp buf : List Nat)
    (h : (readCard rawLen resp buf).1 ≤ 0) :
    (readCard rawLen resp buf).2 = buf :=
  readCard_frame rawLen resp buf h

/-- Witness for C9 at a concrete failing input (activation error -1). -/
theorem C9_uid_buffer_unchanged_on_failure_witness :
    (readCard (-1) (List.replicate 10 0xFF) [1, 2, 3]).1 ≤ 0 ∧
    (readCard (-1) (List.replicate 10 0xFF) [1, 2, 3]).2 = [1, 2, 3] :=
  ⟨by decide,
   C9_uid_buffer_unchanged_on_failure (-1) (List.replicate 10 0xFF) [1, 2, 3]
     (by decide)⟩

end NfcSketch
/-!
Part 2: the ESP-IDF PN5180 driver — SPI/busy-handshake layer
(`pn5180_spi.c`), state-machine steps and command handlers
(`pn5180_state_machine.c`, given as `src/unnamed/part_004`) and the
callback setters (`pn5180.c`).

Hardware reads (IRQ-status register, RF-control register, the BUSY GPIO
line) and the outcomes of SPI transfers are inputs of the embedding;
time is the millisecond tick counter `pn5180_get_tick_ms`, passed
explicitly.  `uint8_t` / `uint32_t` arithmetic is `Nat` with explicit
`% 256` / `% 2^32`.
-/

namespace Pn5180

/-- `pn5180_error_t`. -/
inductive Pn5180Error where
  | ok
  | invalidArg
  | timeout
  | crc
  | auth
  | protocol
  | buffer
  | spi
  | noTag
  | multipleTags
  | hardware
  | notInit
  | busy
  | rfField
  | eeprom
  | unsupported
deriving DecidableEq, Repr

/-- The `esp_err_t` outcomes relevant to the SPI helper. -/
inductive EspErr where
  | ok
  | timeout
  | fail
deriving DecidableEq, Repr

/-- `pn5180_device_state_t`. -/
inductive DeviceState where
  | uninitialized
  | resetting
  | idle
  | configuring
  | scanning
  | transmitting
  | receiving
  | processing
  | error
  | sleep
  | wakingUp
deriving DecidableEq, Repr

/-- `uint32_t` truncation. -/
def u32 (n : Nat) : Nat := n % 4294967296

/-- `uint32_t` subtraction `a - b` (wrapping), as used for tick
differences. -/
def u32sub (a b : Nat) : Nat := (u32 a + (4294967296 - u32 b)) % 4294967296

def CONFIG_PN5180_BUSY_TIMEOUT_MS : Nat := 100
def CONFIG_PN5180_DETECT_TIMEOUT_14443A_MS : Nat := 2
def CONFIG_PN5180_DETECT_TIMEOUT_14443B_MS : Nat := 2
def CONFIG_PN5180_DETECT_TIMEOUT_15693_MS : Nat := 5
def CONFIG_PN5180_SCAN_CYCLE_DELAY_MS : Nat := 1
def PN5180_PROTOCOL_COUNT : Nat := 5
def PN5180_IRQ_STATUS_TX_DONE : Nat := 2
def PN5180_IRQ_STATUS_TX_ERROR : Nat := 16
def PN5180_REG_IRQ_STATUS : Nat := 0x02
def PN5180_REG_RF_CONTROL : Nat := 0x05
def PN5180_RF_CONTROL_FIELD_ON : Nat := 128

/-- The fields of `struct pn5180_dev_t` the state machine and the scan
commands mutate (transport handles, buffers and statistics other than
`total_scans` are omitted: the modelled functions do not read them). -/
structure Dev where
  state : DeviceState
  state_timestamp : Nat
  scanning_enabled : Bool
  enabled_protocols : Nat
  current_protocol_index : Nat
  last_scan_time : Nat
  busy_wait_start_time : Nat
  total_scans : Nat
deriving DecidableEq, Repr

/-!  SPI / busy-handshake layer (`pn5180_spi.c`). -/

/-- The polling loop of `pn5180_wait_busy`: while the BUSY line is
high, return `PN5180_ERR_TIMEOUT` once `tick - start > timeout_ms`,
else delay 1 ms (time advances one tick per iteration).  `busy` is the
level of the BUSY GPIO at each tick.  The structural fuel `timeout + 2`
covers every reachable iteration: the loop exits at the latest at tick
`start + timeout + 1`, so the fuel-0 default is unreachable from
`pn5180_wait_busy`.  Returns the error code and the tick at return. -/
def waitBusyGo (busy : Nat → Bool) (timeout start : Nat) :
    Nat → Nat → Pn5180Error × Nat
  | _, 0 => (.timeout, 0)
  | t, fuel + 1 =>
    if busy t then
      if t - start > timeout then (.timeout, t)
      else waitBusyGo busy timeout start (t + 1) fuel
    else (.ok, t)

/-- `pn5180_wait_busy` (dev non-null), entered at tick `start`. -/
def pn5180_wait_busy (busy : Nat → Bool) (timeout start : Nat) :
    Pn5180Error × Nat :=
  waitBusyGo busy timeout start start (timeout + 2)

/-- `pn5180_spi_transaction`: takes the SPI mutex (modelled as free —
contention is out of scope), waits for the BUSY line with the
configured bound, then performs the transfer, whose outcome is the
oracle `spiOk`.  A BUSY timeout is returned as `ESP_ERR_TIMEOUT`. -/
def pn5180_spi_transaction (busy : Nat → Bool) (t : Nat) (spiOk : Bool) :
    EspErr × Nat :=
  let r := pn5180_wait_busy busy CONFIG_PN5180_BUSY_TIMEOUT_MS t
  if r.1 ≠ .ok then (.timeout, r.2)
  else ((if spiOk then .ok else .fail), r.2)

/-- The 5-byte frame of `pn5180_write_register_internal`:
write-flag/address header, then the 32-bit value MSB first. -/
def writeRegisterFrame (reg value : Nat) : List Nat :=
  [0x80 ||| (reg &&& 0x7F),
   (value >>> 24) &&& 0xFF, (value >>> 16) &&& 0xFF,
   (value >>> 8) &&& 0xFF, value &&& 0xFF]

/-- `pn5180_write_register_internal` (dev and SPI handle non-null):
one SPI transaction carrying the write frame; any transaction failure
(including the BUSY-timeout `ESP_ERR_TIMEOUT`) is mapped to
`PN5180_ERR_SPI`. -/
def pn5180_write_register_internal (busy : Nat → Bool) (t : Nat)
    (spiOk : Bool) : Pn5180Error × Nat :=
  let r := pn5180_spi_transaction busy t spiOk
  if r.1 ≠ .ok then (.spi, r.2) else (.ok, r.2)

/-!  State-machine steps (`src/unnamed/part_004`). -/

/-- The RX-deadline choice of `pn5180_state_transmitting`'s TX_DONE
branch (`switch (dev->current_protocol_index)`). -/
def rxTimeoutForProtocol (idx : Nat) : Nat :=
  if idx = 0 then CONFIG_PN5180_DETECT_TIMEOUT_14443A_MS
  else if idx = 1 then CONFIG_PN5180_DETECT_TIMEOUT_14443B_MS
  else if idx = 2 then CONFIG_PN5180_DETECT_TIMEOUT_15693_MS
  else 5

/-- `pn5180_state_transmitting`.  `irqRead` is the result of reading
`PN5180_REG_IRQ_STATUS` (`none` = bus failure, which escalates to the
Error state); `now` the current tick.  IRQ-status register writes
(clearing the handled bits) are hardware side effects with no device
field, so they do not appear in the state. -/
def pn5180_state_transmitting (dev : Dev) (irqRead : Option Nat) (now : Nat) :
    Dev :=
  match irqRead with
  | none => { dev with state := .error }
  | some irq =>
    if irq &&& PN5180_IRQ_STATUS_TX_DONE ≠ 0 then
      { dev with state := .receiving, state_timestamp := now,
                 busy_wait_start_time :=
                   u32 (now + rxTimeoutForProtocol dev.current_protocol_index) }
    else if irq &&& PN5180_IRQ_STATUS_TX_ERROR ≠ 0 then
      { dev with state := .scanning,
                 current_protocol_index := (dev.current_protocol_index + 1) % 256 }
    else if u32sub now dev.state_timestamp > 100 then
      { dev with state := .scanning,
                 current_protocol_index := (dev.current_protocol_index + 1) % 256 }
    else dev

/-- The round-robin protocol-selection loop of `pn5180_state_scanning`
(`while (1) { ... }`), with the loop's mutable index and explicit fuel:
`some (some k)` = protocol `k` found enabled (break), `some none` = the
index came back to `start` with nothing enabled (go Idle), `none` =
the source loop has not terminated within `fuel` iterations.  The
`uint8_t` increment wraps at 256; an index ≥ `PN5180_PROTOCOL_COUNT`
is reset to 0 after the increment. -/
def scanLoop (enabled start : Nat) : Nat → Nat → Option (Option Nat)
  | _, 0 => none
  | idx, fuel + 1 =>
    if enabled &&& (1 <<< idx) ≠ 0 then some (some idx)
    else
      let idx1 := (idx + 1) % 256
      let idx2 := if PN5180_PROTOCOL_COUNT ≤ idx1 then 0 else idx1
      if idx2 = start then some none
      else scanLoop enabled start idx2 fuel

/-- The source loop of `pn5180_state_scanning` terminates when started
at `start` with mask `enabled` (some fuel is enough). -/
def scanLoopTerminates (enabled start : Nat) : Prop :=
  ∃ fuel, scanLoop enabled start start fuel ≠ none

/-- `pn5180_state_scanning`.  `now` is the current tick; `switchOk` /
`sendOk` are the outcomes of `pn5180_switch_protocol` and
`pn5180_send_detect_command`; `fuel` bounds the protocol-selection
loop, `none` meaning the loop still spins after `fuel` iterations. -/
def pn5180_state_scanning (dev : Dev) (now : Nat) (switchOk sendOk : Bool)
    (fuel : Nat) : Option Dev :=
  if dev.scanning_enabled = false then some { dev with state := .idle }
  else if u32sub now dev.last_scan_time < CONFIG_PN5180_SCAN_CYCLE_DELAY_MS then
    some dev
  else
    match scanLoop dev.enabled_protocols dev.current_protocol_index
        dev.current_protocol_index fuel with
    | none => none
    | some none => some { dev with state := .idle }
    | some (some k) =>
      if switchOk = false then
        some { dev with current_protocol_index := (k + 1) % 256,
                        last_scan_time := now }
      else if sendOk = false then
        some { dev with current_protocol_index := (k + 1) % 256,
                        last_scan_time := now }
      else
        some { dev with current_protocol_index := k, state := .transmitting,
                        state_timestamp := now,
                        total_scans := dev.total_scans + 1 }

/-!  Command handlers (`src/unnamed/part_004`). -/

/-- `pn5180_cmd_start_scan` (dev and cmd non-null), under the device
mutex: a no-op returning `PN5180_OK` when scanning is already enabled;
otherwise installs the mask, resets the protocol index and enters
Configuring. -/
def pn5180_cmd_start_scan (dev : Dev) (protocols now : Nat) :
    Pn5180Error × Dev :=
  if dev.scanning_enabled then (.ok, dev)
  else
    (.ok, { dev with enabled_protocols := protocols,
                     scanning_enabled := true,
                     current_protocol_index := 0,
                     state := .configuring,
                     state_timestamp := now })

/-- `pn5180_cmd_stop_scan` (dev non-null), under the device mutex: a
no-op returning `PN5180_OK` when scanning is not enabled; otherwise
disables scanning, clears the RF-field bit of `RF_CONTROL` (when the
register read succeeds; `rfRead` is its result) and goes Idle.  The
third component lists the register writes performed, as
(register, value) pairs. -/
def pn5180_cmd_stop_scan (dev : Dev) (rfRead : Option Nat) :
    Pn5180Error × Dev × List (Nat × Nat) :=
  if dev.scanning_enabled = false then (.ok, dev, [])
  else
    match rfRead with
    | some rc =>
      (.ok, { dev with scanning_enabled := false, state := .idle },
       [(PN5180_REG_RF_CONTROL, rc &&& 4294967167)])
    | none =>
      (.ok, { dev with scanning_enabled := false, state := .idle }, [])

/-!  Callback registration (`pn5180.c`) and delivery (`part_004`). -/

/-- The callback-related fields of `struct pn5180_dev_t`: three
function pointers and ONE shared `callback_user_data` field.  Function
pointers are opaque identifiers. -/
structure Callbacks where
  card_callback : Option Nat
  error_callback : Option Nat
  log_callback : Option Nat
  callback_user_data : Nat
deriving DecidableEq, Repr

/-- `pn5180_set_card_callback` (dev non-null, under the device mutex). -/
def pn5180_set_card_callback (s : Callbacks) (cb ud : Nat) : Callbacks :=
  { s with card_callback := some cb, callback_user_data := ud }

/-- `pn5180_set_error_callback`. -/
def pn5180_set_error_callback (s : Callbacks) (cb ud : Nat) : Callbacks :=
  { s with error_callback := some cb, callback_user_data := ud }

/-- `pn5180_set_log_callback`. -/
def pn5180_set_log_callback (s : Callbacks) (cb ud : Nat) : Callbacks :=
  { s with log_callback := some cb, callback_user_data := ud }

/-- One public setter call with its arguments. -/
inductive SetterCall where
  | card (cb ud : Nat)
  | err (cb ud : Nat)
  | log (cb ud : Nat)
deriving DecidableEq, Repr

def applySetter (s : Callbacks) : SetterCall → Callbacks
  | .card cb ud => pn5180_set_card_callback s cb ud
  | .err cb ud => pn5180_set_error_callback s cb ud
  | .log cb ud => pn5180_set_log_callback s cb ud

def applySetters (s : Callbacks) (calls : List SetterCall) : Callbacks :=
  calls.foldl applySetter s

def setterUserData : SetterCall → Nat
  | .card _ ud => ud
  | .err _ ud => ud
  | .log _ ud => ud

/-- User-data pointer handed to the card callback when a card is
reported (`dev->card_callback(&card_info, dev->callback_user_data)`). -/
def cardCallbackDeliveredUserData (s : Callbacks) : Nat := s.callback_user_data

/-- User-data pointer handed to the log callback
(`dev->log_callback(buffer, dev->callback_user_data)`). -/
def logCallbackDeliveredUserData (s : Callbacks) : Nat := s.callback_user_data

end Pn5180
namespace Pn5180

lemma waitBusyGo_always_busy (busy : Nat → Bool) (hbusy : ∀ t, busy t = true)
    (timeout start : Nat) :
    ∀ fuel t, start ≤ t → t ≤ start + timeout + 1 →
      t + fuel = start + timeout + 2 →
      waitBusyGo busy timeout start t fuel = (.timeout, start + timeout + 1) := by
  intro fuel
  induction fuel with
  | zero => intro t h1 h2 h3; omega
  | succ m ih =>
    intro t h1 h2 h3
    by_cases hgt : t - start > timeout
    · have ht : t = start + timeout + 1 := by omega
      subst ht
      simp [waitBusyGo, hbusy, hgt]
    · simp only [waitBusyGo, hbusy t, if_true, if_neg hgt]
      exact ih (t + 1) (by omega) (by omega) (by omega)

lemma pn5180_wait_busy_always_busy (busy : Nat → Bool)
    (hbusy : ∀ t, busy t = true) (timeout start : Nat) :
    pn5180_wait_busy busy timeout start = (.timeout, start + timeout + 1) :=
  waitBusyGo_always_busy busy hbusy timeout start (timeout + 2) start
    (Nat.le_refl start) (by omega) (by omega)

lemma scanLoop_none_enabled (enabled start : Nat)
    (hstart : start < PN5180_PROTOCOL_COUNT)
    (hmask : ∀ i < PN5180_PROTOCOL_COUNT, enabled &&& (1 <<< i) = 0) :
    scanLoop enabled start start (PN5180_PROTOCOL_COUNT + 1) = some none := by
  have h0 : enabled &&& 1 = 0 := hmask 0 (by decide)
  have h1 : enabled &&& 2 = 0 := hmask 1 (by decide)
  have h2 : enabled &&& 4 = 0 := hmask 2 (by decide)
  have h3 : enabled &&& 8 = 0 := hmask 3 (by decide)
  have h4 : enabled &&& 16 = 0 := hmask 4 (by decide)
  simp only [PN5180_PROTOCOL_COUNT] at hstart ⊢
  interval_cases start <;>
    simp [scanLoop, PN5180_PROTOCOL_COUNT, h0, h1, h2, h3, h4]

/-- C5: in the Transmitting step, the TX_DONE IRQ bit moves the machine
to Receiving with the receive deadline set to the protocol-specific
timeout (index 0 = ISO14443A: 2 ms, index 1 = ISO14443B: 2 ms, index 2
= ISO15693: 5 ms, any other index: 5 ms) from the current tick; with
TX_DONE clear, a set TX_ERROR bit, or neither bit once more than 100 ms
have elapsed since entering Transmitting, moves the machine back to
Scanning and advances the protocol index. -/
theorem C5_transmitting_transitions (dev : Dev) (irq now : Nat) :
    (irq &&& PN5180_IRQ_STATUS_TX_DONE ≠ 0 →
      pn5180_state_transmitting dev (some irq) now =
        { dev with state := .receiving, state_timestamp := now,
                   busy_wait_start_time := u32 (now +
                     (if dev.current_protocol_index = 0 then 2
                      else if dev.current_protocol_index = 1 then 2
                      else if dev.current_protocol_index = 2 then 5
                      else 5)) }) ∧
    (irq &&& PN5180_IRQ_STATUS_TX_DONE = 0 →
      irq &&& PN5180_IRQ_STATUS_TX_ERROR ≠ 0 →
      pn5180_state_transmitting dev (some irq) now =
        { dev with state := .scanning,
                   current_protocol_index :=
                     (dev.current_protocol_index + 1) % 256 }) ∧
    (irq &&& PN5180_IRQ_STATUS_TX_DONE = 0 →
      irq &&& PN5180_IRQ_STATUS_TX_ERROR = 0 →
      u32sub now dev.state_timestamp > 100 →
      pn5180_state_transmitting dev (some irq) now =
        { dev with state := .scanning,
                   current_protocol_index :=
                     (dev.current_protocol_index + 1) % 256 }) := by
  refine ⟨?_, ?_, ?_⟩
  · intro hdone
    simp [pn5180_state_transmitting, rxTimeoutForProtocol,
      CONFIG_PN5180_DETECT_TIMEOUT_14443A_MS,
      CONFIG_PN5180_DETECT_TIMEOUT_14443B_MS,
      CONFIG_PN5180_DETECT_TIMEOUT_15693_MS, hdone]
  · intro hdone herr
    simp [pn5180_state_transmitting, hdone, herr]
  · intro hdone herr hel
    simp [pn5180_state_transmitting, hdone, herr, hel]

/-- Witness for C5: TX_DONE alone at protocol index 2 (ISO15693), the
TX_ERROR signal, and the 100 ms timeout, on a concrete device. -/
theorem C5_transmitting_transitions_witness :
    ((2 &&& PN5180_IRQ_STATUS_TX_DONE ≠ 0 ∧
      (pn5180_state_transmitting
        { state := .transmitting, state_timestamp := 1000,
          scanning_enabled := true, enabled_protocols := 4,
          current_protocol_index := 2, last_scan_time := 990,
          busy_wait_start_time := 0, total_scans := 3 } (some 2) 1001).state =
        DeviceState.receiving ∧
      (pn5180_state_transmitting
        { state := .transmitting, state_timestamp := 1000,
          scanning_enabled := true, enabled_protocols := 4,
          current_protocol_index := 2, last_scan_time := 990,
          busy_wait_start_time := 0, total_scans := 3 } (some 2)
          1001).busy_wait_start_time = 1006) ∧
     (16 &&& PN5180_IRQ_STATUS_TX_DONE = 0 ∧
      16 &&& PN5180_IRQ_STATUS_TX_ERROR ≠ 0 ∧
      (pn5180_state_transmitting
        { state := .transmitting, state_timestamp := 1000,
          scanning_enabled := true, enabled_protocols := 4,
          current_protocol_index := 2, last_scan_time := 990,
          busy_wait_start_time := 0, total_scans := 3 } (some 16) 1001).state =
        DeviceState.scanning) ∧
     (0 &&& PN5180_IRQ_STATUS_TX_DONE = 0 ∧
      0 &&& PN5180_IRQ_STATUS_TX_ERROR = 0 ∧
      u32sub 1101 1000 > 100 ∧
      pn5180_state_transmitting
        { state := .transmitting, state_timestamp := 1000,
          scanning_enabled := true, enabled_protocols := 4,
          current_protocol_index := 2, last_scan_time := 990,
          busy_wait_start_time := 0, total_scans := 3 } (some 0) 1101 =
        { state := .scanning, state_timestamp := 1000,
          scanning_enabled := true, enabled_protocols := 4,
          current_protocol_index := 3, last_scan_time := 990,
          busy_wait_start_time := 0, total_scans := 3 })) := by
  refine ⟨⟨by decide, ?_, ?_⟩, ⟨by decide, by decide, ?_⟩,
    ⟨by decide, by decide, by decide, ?_⟩⟩
  · rw [((C5_transmitting_transitions
      { state := .transmitting, state_timestamp := 1000,
        scanning_enabled := true, enabled_protocols := 4,
        current_protocol_index := 2, last_scan_time := 990,
        busy_wait_start_time := 0, total_scans := 3 } 2 1001).1 (by decide))]
  · rw [((C5_transmitting_transitions
      { state := .transmitting, state_timestamp := 1000,
        scanning_enabled := true, enabled_protocols := 4,
        current_protocol_index := 2, last_scan_time := 990,
        busy_wait_start_time := 0, total_scans := 3 } 2 1001).1 (by decide))]
    decide
  · rw [((C5_transmitting_transitions
      { state := .transmitting, state_timestamp := 1000,
        scanning_enabled := true, enabled_protocols := 4,
        current_protocol_index := 2, last_scan_time := 990,
        busy_wait_start_time := 0, total_scans := 3 } 16 1001).2.1 (by decide)
        (by decide))]
  · exact (C5_transmitting_transitions
      { state := .transmitting, state_timestamp := 1000,
        scanning_enabled := true, enabled_protocols := 4,
        current_protocol_index := 2, last_scan_time := 990,
        busy_wait_start_time := 0, total_scans := 3 } 0 1101).2.2 (by decide)
        (by decide) (by decide)

end Pn5180
namespace Pn5180

/-- C6 counterexample: with a BUSY line that never clears, the register
write operation returns within the bound but with `PN5180_ERR_SPI`, not
`PN5180_ERR_TIMEOUT` — the claim that the enclosing register/buffer
operation propagates a Timeout result is false as stated. -/
theorem C6_register_op_maps_timeout_to_spi :
    pn5180_write_register_internal (fun _ => true) 0 true =
      (Pn5180Error.spi, 101) ∧
    Pn5180Error.spi ≠ Pn5180Error.timeout := by
  exact ⟨by decide, by decide⟩

/-- C6 (amended): if the BUSY line never clears, every bus operation
still returns an error at tick `start + timeout + 1` — within one tick
of the configured bound, never looping forever: `pn5180_wait_busy`
returns `PN5180_ERR_TIMEOUT`, `pn5180_spi_transaction` propagates it as
`ESP_ERR_TIMEOUT`, and the enclosing register operation returns the
error to its caller mapped to `PN5180_ERR_SPI` (not Timeout). -/
theorem C6_busy_never_clears_bounded_error (busy : Nat → Bool)
    (timeout start : Nat) (spiOk : Bool) (hbusy : ∀ t, busy t = true) :
    pn5180_wait_busy busy timeout start =
      (Pn5180Error.timeout, start + timeout + 1) ∧
    pn5180_spi_transaction busy start spiOk =
      (EspErr.timeout, start + CONFIG_PN5180_BUSY_TIMEOUT_MS + 1) ∧
    pn5180_write_register_internal busy start spiOk =
      (Pn5180Error.spi, start + CONFIG_PN5180_BUSY_TIMEOUT_MS + 1) := by
  have hw := pn5180_wait_busy_always_busy busy hbusy
  refine ⟨hw timeout start, ?_, ?_⟩
  · simp [pn5180_spi_transaction, hw CONFIG_PN5180_BUSY_TIMEOUT_MS start]
  · simp [pn5180_write_register_internal, pn5180_spi_transaction,
      hw CONFIG_PN5180_BUSY_TIMEOUT_MS start]

/-- Witness for the amended C6 with the always-high BUSY line. -/
theorem C6_busy_never_clears_bounded_error_witness :
    ((∀ t : Nat, (fun _ : Nat => true) t = true) ∧
     pn5180_wait_busy (fun _ => true) 100 0 = (Pn5180Error.timeout, 101) ∧
     pn5180_spi_transaction (fun _ => true) 0 false = (EspErr.timeout, 101) ∧
     pn5180_write_register_internal (fun _ => true) 0 false =
       (Pn5180Error.spi, 101)) :=
  ⟨fun _ => rfl,
   C6_busy_never_clears_bounded_error (fun _ => true) 100 0 false
     (fun _ => rfl)⟩

/-- C7: the scan commands are idempotent: `pn5180_cmd_stop_scan` when
scanning is not enabled returns `PN5180_OK`, changes no device field
and performs no register write (in particular no RF-field write);
`pn5180_cmd_start_scan` when scanning is already enabled returns
`PN5180_OK` and changes no device field (mask, protocol index and
lifecycle state keep their prior values). -/
theorem C7_scan_commands_idempotent (dev : Dev) (protocols now : Nat)
    (rfRead : Option Nat) :
    (dev.scanning_enabled = false →
      pn5180_cmd_stop_scan dev rfRead = (.ok, dev, [])) ∧
    (dev.scanning_enabled = true →
      pn5180_cmd_start_scan dev protocols now = (.ok, dev)) := by
  constructor
  · intro h
    simp [pn5180_cmd_stop_scan, h]
  · intro h
    simp [pn5180_cmd_start_scan, h]

/-- Witness for C7 on concrete idle and scanning devices. -/
theorem C7_scan_commands_idempotent_witness :
    (({ state := .idle, state_timestamp := 0, scanning_enabled := false,
        enabled_protocols := 0, current_protocol_index := 0,
        last_scan_time := 0, busy_wait_start_time := 0,
        total_scans := 0 } : Dev).scanning_enabled = false ∧
     pn5180_cmd_stop_scan
       { state := .idle, state_timestamp := 0, scanning_enabled := false,
         enabled_protocols := 0, current_protocol_index := 0,
         last_scan_time := 0, busy_wait_start_time := 0, total_scans := 0 }
       (some 128) =
       (.ok,
        { state := .idle, state_timestamp := 0, scanning_enabled := false,
          enabled_protocols := 0, current_protocol_index := 0,
          last_scan_time := 0, busy_wait_start_time := 0, total_scans := 0 },
        [])) ∧
    (({ state := .scanning, state_timestamp := 5, scanning_enabled := true,
        enabled_protocols := 1, current_protocol_index := 0,
        last_scan_time := 4, busy_wait_start_time := 0,
        total_scans := 9 } : Dev).scanning_enabled = true ∧
     pn5180_cmd_start_scan
       { state := .scanning, state_timestamp := 5, scanning_enabled := true,
         enabled_protocols := 1, current_protocol_index := 0,
         last_scan_time := 4, busy_wait_start_time := 0, total_scans := 9 }
       7 1000 =
       (.ok,
        { state := .scanning, state_timestamp := 5, scanning_enabled := true,
          enabled_protocols := 1, current_protocol_index := 0,
          last_scan_time := 4, busy_wait_start_time := 0,
          total_scans := 9 })) :=
  ⟨⟨rfl,
    (C7_scan_commands_idempotent
      { state := .idle, state_timestamp := 0, scanning_enabled := false,
        enabled_protocols := 0, current_protocol_index := 0,
        last_scan_time := 0, busy_wait_start_time := 0, total_scans := 0 }
      7 1000 (some 128)).1 rfl⟩,
   ⟨rfl,
    (C7_scan_commands_idempotent
      { state := .scanning, state_timestamp := 5, scanning_enabled := true,
        enabled_protocols := 1, current_protocol_index := 0,
        last_scan_time := 4, busy_wait_start_time := 0, total_scans := 9 }
      7 1000 (some 128)).2 rfl⟩⟩

/-- C8 counterexample: the round-robin loop does NOT terminate for
every starting protocol index.  With an empty protocol mask and
starting index 5 (= `PN5180_PROTOCOL_COUNT`, reachable as the raw
`current_protocol_index++` of the Transmitting/Receiving error paths
does not wrap), the index cycles through 0..4 forever and never equals
the start index again, so no amount of fuel makes the loop finish. -/
theorem C8_loop_diverges_at_start_index_5 : ¬ scanLoopTerminates 0 5 := by
  have key : ∀ fuel idx, idx < 5 → scanLoop 0 5 idx fuel = none := by
    intro fuel
    induction fuel with
    | zero => intro idx h; rfl
    | succ m ih =>
      intro idx h
      interval_cases idx <;>
        · simp [scanLoop, PN5180_PROTOCOL_COUNT]
          exact ih _ (by norm_num)
  rintro ⟨fuel, hne⟩
  apply hne
  cases fuel with
  | zero => rfl
  | succ m =>
    have step : scanLoop 0 5 5 (m + 1) = scanLoop 0 5 0 m := by
      simp [scanLoop, PN5180_PROTOCOL_COUNT]
    rw [step]
    exact key m 0 (by norm_num)

/-- C8 (amended): in the Scanning step with scanning enabled, the cycle
delay elapsed, no protocol bit enabled in the mask and the starting
protocol index below `PN5180_PROTOCOL_COUNT` (the only values the
normal Configuring/Scanning flow produces), the round-robin loop
terminates within `PN5180_PROTOCOL_COUNT + 1` iterations with the
no-protocol outcome and the state machine transitions to Idle.  (For a
starting index ≥ `PN5180_PROTOCOL_COUNT` with an empty mask the loop
never terminates — see the counterexample.) -/
theorem C8_no_enabled_protocol_goes_idle (dev : Dev) (now : Nat)
    (switchOk sendOk : Bool)
    (henabled : dev.scanning_enabled = true)
    (hdue : CONFIG_PN5180_SCAN_CYCLE_DELAY_MS ≤ u32sub now dev.last_scan_time)
    (hidx : dev.current_protocol_index < PN5180_PROTOCOL_COUNT)
    (hmask : ∀ i < PN5180_PROTOCOL_COUNT,
      dev.enabled_protocols &&& (1 <<< i) = 0) :
    scanLoop dev.enabled_protocols dev.current_protocol_index
      dev.current_protocol_index (PN5180_PROTOCOL_COUNT + 1) = some none ∧
    pn5180_state_scanning dev now switchOk sendOk (PN5180_PROTOCOL_COUNT + 1) =
      some { dev with state := DeviceState.idle } := by
  have hloop := scanLoop_none_enabled dev.enabled_protocols
    dev.current_protocol_index hidx hmask
  refine ⟨hloop, ?_⟩
  rw [pn5180_state_scanning, henabled]
  rw [if_neg (by simp), if_neg (by omega), hloop]

/-- Witness for the amended C8: a scanning-enabled device with an empty
mask, index 0, due for its next scan. -/
theorem C8_no_enabled_protocol_goes_idle_witness :
    (({ state := .scanning, state_timestamp := 5, scanning_enabled := true,
        enabled_protocols := 0, current_protocol_index := 0,
        last_scan_time := 0, busy_wait_start_time := 0,
        total_scans := 0 } : Dev).scanning_enabled = true ∧
     CONFIG_PN5180_SCAN_CYCLE_DELAY_MS ≤ u32sub 10 0 ∧
     (0 : Nat) < PN5180_PROTOCOL_COUNT ∧
     pn5180_state_scanning
       { state := .scanning, state_timestamp := 5, scanning_enabled := true,
         enabled_protocols := 0, current_protocol_index := 0,
         last_scan_time := 0, busy_wait_start_time := 0, total_scans := 0 }
       10 true true (PN5180_PROTOCOL_COUNT + 1) =
       some { state := .idle, state_timestamp := 5, scanning_enabled := true,
              enabled_protocols := 0, current_protocol_index := 0,
              last_scan_time := 0, busy_wait_start_time := 0,
              total_scans := 0 }) :=
  ⟨rfl, by decide, by decide,
   (C8_no_enabled_protocol_goes_idle
     { state := .scanning, state_timestamp := 5, scanning_enabled := true,
       enabled_protocols := 0, current_protocol_index := 0,
       last_scan_time := 0, busy_wait_start_time := 0, total_scans := 0 }
     10 true true rfl (by decide) (by decide)
     (fun i _ => by simp)).2⟩

/-- C10: the device handle keeps ONE shared `callback_user_data` field:
each of the three setters overwrites it (while touching only its own
function-pointer field), so after any sequence of setter calls the
user-data pointer delivered to the card and log callbacks is the one
passed to whichever setter ran last — illustrated concretely: after
`set_card(cb1, 7)` then `set_log(cb2, 9)`, the card callback is handed
9, not the 7 registered together with it. -/
theorem C10_single_shared_callback_user_data (s : Callbacks)
    (calls : List SetterCall) (c : SetterCall) (cb ud : Nat) :
    ((pn5180_set_card_callback s cb ud).callback_user_data = ud ∧
     (pn5180_set_error_callback s cb ud).callback_user_data = ud ∧
     (pn5180_set_log_callback s cb ud).callback_user_data = ud) ∧
    ((pn5180_set_error_callback s cb ud).card_callback = s.card_callback ∧
     (pn5180_set_log_callback s cb ud).card_callback = s.card_callback) ∧
    (applySetters s (calls ++ [c])).callback_user_data = setterUserData c ∧
    cardCallbackDeliveredUserData (applySetters s (calls ++ [c])) =
      setterUserData c ∧
    logCallbackDeliveredUserData (applySetters s (calls ++ [c])) =
      setterUserData c ∧
    cardCallbackDeliveredUserData
      (applySetters ⟨none, none, none, 0⟩
        [SetterCall.card 1 7, SetterCall.log 2 9]) = 9 := by
  refine ⟨⟨rfl, rfl, rfl⟩, ⟨rfl, rfl⟩, ?_, ?_, ?_, rfl⟩ <;>
    · rw [applySetters, List.foldl_append]
      cases c <;> rfl

end Pn5180
